import Mathlib

/-!
Shallow embedding of src/app.py (quant-risk-engine).

The file models, over the rationals, the code that the claims concern:

* ContractSpec and its quantization primitive round_qty (the spec's
  quantize_quantity);
* CrossMarginPosition.get_liquidation_price and
  CrossMarginPosition.open_position;
* the static derivation CrossMarginPosition.calculate_from_risk;
* the take-profit side validation performed by the Streamlit main() flow
  before it invokes calculate_from_risk.

Python floats are idealised as rationals.  Every raise site of the source
becomes a distinct constructor of an error type, so fallible code returns
Except.  Fields that Python initialises to None but always assigns before any
modelled operation reads them (entry_price, leverage, mark_price of a
position produced by open_position) are modelled as plain values.
-/

/-- Fuel-driven count of the decimal digits of the fractional part of a
terminating decimal: the least n with q * 10 ^ n an integer.  This models
Python's len(str(x).split('.')[-1]) in ContractSpec.round_qty for the decimal
literals the code is used with: str(0.0005) is "0.0005", whose fractional
part "0005" has 4 digits, and 4 is the least n with 0.0005 * 10 ^ n integral
(leading fractional zeros are counted by both). -/
def fracDigitsFuel : ℕ → ℚ → ℕ
  | 0, _ => 0
  | fuel+1, q => if ((⌊q⌋ : ℚ) = q) then 0 else fracDigitsFuel fuel (q * 10) + 1

/-- Decimal fractional-digit count with a fixed fuel of 60 (far beyond the 17
significant digits a Python float can print). -/
def fracDigits (q : ℚ) : ℕ := fracDigitsFuel 60 q

/-- Embedding of the dataclass ContractSpec (src/app.py lines 13-22). -/
structure ContractSpec where
  symbol : String
  min_qty : ℚ
  price_tick : ℚ
  max_leverage : ℤ
  mmr : ℚ
  taker_fee_rate : ℚ
  liquidation_fee_rate : ℚ

/-- Embedding of the `precision` local of ContractSpec.round_qty (src/app.py
lines 28-30): the number of fractional decimal digits of min_qty when
min_qty < 1, and 0 otherwise. -/
def ContractSpec.roundPrecision (s : ContractSpec) : ℕ :=
  if s.min_qty < 1 then fracDigits s.min_qty else 0

/-- Embedding of ContractSpec.round_qty (src/app.py lines 24-32): if
min_qty ≤ 0 return qty unchanged; otherwise floor qty to `roundPrecision`
decimal places (factor = 10 ^ precision, math.floor(qty * factor) / factor). -/
def ContractSpec.round_qty (s : ContractSpec) (qty : ℚ) : ℚ :=
  if s.min_qty ≤ 0 then qty
  else (⌊qty * 10 ^ s.roundPrecision⌋ : ℚ) / 10 ^ s.roundPrecision

/-- Embedding of the CrossMarginPosition state (src/app.py lines 45-57).
Python initialises entry_price, leverage and mark_price to None; every state
whose quantity is nonzero was produced by open_position, which assigns all
three, so they are modelled as plain values. -/
structure CrossMarginPosition where
  symbol : String
  spec : ContractSpec
  balance : ℚ
  entry_price : ℚ
  quantity : ℚ
  leverage : ℤ
  mark_price : ℚ

/-- Embedding of CrossMarginPosition.__init__ (src/app.py lines 50-57): the
constructor sets quantity to 0; the None-initialised fields are given the
placeholder 0 (they are overwritten by open_position before any modelled
operation reads them, and get_liquidation_price returns early on
quantity = 0). -/
def CrossMarginPosition.mk0 (symbol : String) (spec : ContractSpec)
    (balance : ℚ) : CrossMarginPosition :=
  ⟨symbol, spec, balance, 0, 0, 0, 0⟩

/-- Error constructors, one per raise site of src/app.py reachable from the
modelled operations:
* stopEqualsEntry — line 156, stop-loss equals entry;
* sizeTooSmall — line 164, quantized quantity ≤ 0;
* balanceNotPositive — line 171, balance ≤ 0;
* leverageExceeded — line 174, required leverage above the contract maximum;
* divisionByZero — line 177, Python ZeroDivisionError when the derived
  leverage is 0 (notional ≤ 0);
* leverageOutOfRange — line 61, open_position leverage outside
  [1, max_leverage];
* qtyZero — line 63, open_position quantity 0;
* insufficientBalance — line 70, open_position margin above balance. -/
inductive CalcError where
  | stopEqualsEntry
  | sizeTooSmall
  | balanceNotPositive
  | leverageExceeded
  | divisionByZero
  | leverageOutOfRange
  | qtyZero
  | insufficientBalance
deriving DecidableEq

/-- Embedding of CrossMarginPosition.get_liquidation_price (src/app.py lines
104-126). -/
def CrossMarginPosition.get_liquidation_price
    (pos : CrossMarginPosition) : Option ℚ :=
  if pos.quantity = 0 then none
  else
    let abs_qty := |pos.quantity|
    let entry := pos.entry_price
    let bal := pos.balance
    let mmr := pos.spec.mmr
    let liq_fee := pos.spec.liquidation_fee_rate
    if 0 < pos.quantity then
      let numerator := bal - entry * abs_qty
      let denominator := abs_qty * (mmr + liq_fee - 1)
      if denominator = 0 then none
      else
        let p := numerator / denominator
        if 0 < p then some p else none
    else
      let numerator := bal + entry * abs_qty
      let denominator := abs_qty * (mmr + liq_fee + 1)
      if denominator = 0 then none
      else
        let p := numerator / denominator
        if 0 < p then some p else none

/-- Embedding of CrossMarginPosition.open_position (src/app.py lines 59-77);
the two raise sites and the margin check become error returns. -/
def CrossMarginPosition.open_position (pos : CrossMarginPosition)
    (entry_price quantity : ℚ) (leverage : ℤ) :
    Except CalcError CrossMarginPosition :=
  if ¬ (1 ≤ leverage ∧ leverage ≤ pos.spec.max_leverage) then
    .error .leverageOutOfRange
  else if quantity = 0 then .error .qtyZero
  else
    let abs_qty := |quantity|
    let notional := abs_qty * entry_price
    let initial_margin := notional / (leverage : ℚ)
    if pos.balance < initial_margin then .error .insufficientBalance
    else
      let rounded_qty :=
        pos.spec.round_qty abs_qty * (if 0 < quantity then 1 else -1)
      .ok { pos with
              entry_price := entry_price
              quantity := rounded_qty
              leverage := leverage
              mark_price := entry_price }

/-- Embedding of the result dictionary of calculate_from_risk (src/app.py
lines 192-200); the spec's TradePlan. -/
structure TradePlan where
  quantity : ℚ
  leverage : ℤ
  margin : ℚ
  notional : ℚ
  profit : Option ℚ
  rr : Option ℚ
  liquidation_price : Option ℚ
deriving DecidableEq

/-- Embedding of the static method CrossMarginPosition.calculate_from_risk
(src/app.py lines 144-200), checks in source order; math.ceil becomes the
integer ceiling on ℚ and the ZeroDivisionError that notional / leverage
raises when leverage = 0 becomes the divisionByZero error. -/
def CrossMarginPosition.calculate_from_risk
    (entry_price stop_loss risk_amount balance : ℚ)
    (contract_spec : ContractSpec) (take_profit : Option ℚ) :
    Except CalcError TradePlan :=
  if entry_price = stop_loss then .error .stopEqualsEntry
  else
    let is_long := stop_loss < entry_price
    let price_diff := |entry_price - stop_loss|
    let raw_qty := risk_amount / price_diff
    let qty0 := contract_spec.round_qty raw_qty
    if qty0 ≤ 0 then .error .sizeTooSmall
    else
      let qty := if is_long then qty0 else -qty0
      let abs_qty := |qty|
      let notional := abs_qty * entry_price
      if balance ≤ 0 then .error .balanceNotPositive
      else
        let min_leverage_needed : ℤ := ⌈notional / balance⌉
        if contract_spec.max_leverage < min_leverage_needed then
          .error .leverageExceeded
        else
          let leverage := min_leverage_needed
          if leverage = 0 then .error .divisionByZero
          else
            let actual_margin := notional / (leverage : ℚ)
            match (CrossMarginPosition.mk0 contract_spec.symbol contract_spec
                balance).open_position entry_price qty leverage with
            | .error e => .error e
            | .ok temp_pos =>
              let liq_price := temp_pos.get_liquidation_price
              let profit := take_profit.map (fun tp => abs_qty * |tp - entry_price|)
              let rr := take_profit.map (fun tp =>
                if risk_amount = 0 then 0
                else abs_qty * |tp - entry_price| / risk_amount)
              .ok ⟨qty, leverage, actual_margin, notional, profit, rr, liq_price⟩

/-- Error constructors for the extra validation that main() performs before
it calls calculate_from_risk (src/app.py lines 268-279):
* stopEqEntry — line 268;
* longTpNotAbove — line 275 (the spec's DirectionConflict for a long);
* shortTpNotBelow — line 278 (the spec's DirectionConflict for a short). -/
inductive UiCheckError where
  | stopEqEntry
  | longTpNotAbove
  | shortTpNotBelow
deriving DecidableEq

/-- Embedding of the validation-plus-derivation flow of main() (src/app.py
lines 265-290): the in-page checks, then the call to calculate_from_risk with
take_profit of 0 treated as absent. -/
def main_flow (entry_price stop_loss risk_amount balance take_profit : ℚ)
    (spec : ContractSpec) : Except (Sum UiCheckError CalcError) TradePlan :=
  if entry_price = stop_loss then .error (.inl .stopEqEntry)
  else
    let is_long := stop_loss < entry_price
    if is_long ∧ take_profit ≤ entry_price ∧ take_profit ≠ 0 then
      .error (.inl .longTpNotAbove)
    else if ¬ is_long ∧ entry_price ≤ take_profit ∧ take_profit ≠ 0 then
      .error (.inl .shortTpNotBelow)
    else
      match CrossMarginPosition.calculate_from_risk entry_price stop_loss
          risk_amount balance spec
          (if take_profit = 0 then none else some take_profit) with
      | .error e => .error (.inr e)
      | .ok r => .ok r

/-- Embedding of DEFAULT_SPEC (src/app.py lines 204-212). -/
def DEFAULT_SPEC : ContractSpec :=
  ⟨"BTCUSDT", 1/10000, 1/10, 200, 1/200, 1/2500, 1/2500⟩

/-- Claim-side predicate, following the words of C1: r is the largest
multiple of `step` that does not exceed `raw` (a multiple of step, at most
raw, and within step of raw). -/
def isFloorMultiple (step raw r : ℚ) : Prop :=
  (∃ k : ℤ, r = k * step) ∧ r ≤ raw ∧ raw < r + step

/-- Claim-side model, following the words of C8 and spec section 4.3 (where
qty denotes the absolute quantity): undefined when the denominator is zero or
the resulting price is non-positive, otherwise the long/short closed-form
price. -/
def liq_price_model (balance entry qty mmr liq_fee : ℚ) : Option ℚ :=
  let a := |qty|
  let num := if 0 < qty then balance - entry * a else balance + entry * a
  let den := if 0 < qty then a * (mmr + liq_fee - 1) else a * (mmr + liq_fee + 1)
  if den = 0 ∨ num / den ≤ 0 then none else some (num / den)

/-- Contract whose minimum increment 0.0005 is not a power of ten; its
fractional part prints with 4 digits, so round_qty floors to 4 decimal
places. -/
def specC1 : ContractSpec := ⟨"XUSDT", 1/2000, 1/10, 200, 1/200, 1/2500, 1/2500⟩

/-- Contract with minimum increment 0, i.e. quantization disabled. -/
def specNoMin : ContractSpec := ⟨"YUSDT", 0, 1/10, 200, 1/200, 1/2500, 1/2500⟩

/-- Position state reached by open_position(100, 1, 200) on a balance of
0.52: the margin check passes (margin 100 / 200 = 0.5 ≤ 0.52), yet the
balance is below the maintenance cost 100 * 0.0054 = 0.54 at entry. -/
def posC3 : CrossMarginPosition :=
  ⟨"BTCUSDT", DEFAULT_SPEC, 13/25, 100, 1, 200, 100⟩

/-- Position produced by the worked example of spec section 8: entry 60000,
quantity 0.1, balance 1000, leverage 6 under DEFAULT_SPEC. -/
def posEx : CrossMarginPosition := ⟨"BTCUSDT", DEFAULT_SPEC, 1000, 60000, 1/10, 6, 60000⟩

/-- Trade plan returned for the worked example of spec section 8: entry
60000, stop 59500, risk 50, balance 1000, DEFAULT_SPEC, no take-profit. -/
def planEx : TradePlan := ⟨1/10, 6, 1000, 6000, none, none, some (250000000/4973)⟩

lemma ceil_as_neg_floor (q : ℚ) : ⌈q⌉ = -⌊-q⌋ := by
  rw [Int.floor_neg, neg_neg]

lemma fracDigitsFuel_succ (n : ℕ) (q : ℚ) :
    fracDigitsFuel (n+1) q =
      if ((⌊q⌋ : ℚ) = q) then 0 else fracDigitsFuel n (q * 10) + 1 := rfl

lemma fracDigitsFuel_eval (n : ℕ) :
    ∀ fuel, ∀ q : ℚ, n ≤ fuel →
      ((⌊q * 10 ^ n⌋ : ℚ) = q * 10 ^ n) →
      (∀ m, m < n → ¬ ((⌊q * 10 ^ m⌋ : ℚ) = q * 10 ^ m)) →
      fracDigitsFuel fuel q = n := by
  induction n with
  | zero =>
    intro fuel q _ hint _
    rw [pow_zero, mul_one] at hint
    match fuel with
    | 0 => rfl
    | f + 1 => rw [fracDigitsFuel_succ, if_pos hint]
  | succ k ih =>
    intro fuel q hfuel hint hnot
    match fuel, hfuel with
    | f + 1, hfuel =>
      have h0 : ¬ ((⌊q⌋ : ℚ) = q) := by
        have := hnot 0 (Nat.succ_pos k)
        rwa [pow_zero, mul_one] at this
      rw [fracDigitsFuel_succ, if_neg h0]
      have hk : fracDigitsFuel f (q * 10) = k := by
        refine ih f (q * 10) (Nat.succ_le_succ_iff.mp hfuel) ?_ ?_
        · have h : q * 10 * 10 ^ k = q * 10 ^ (k + 1) := by ring
          rw [h]; exact hint
        · intro m hm
          have h : q * 10 * 10 ^ m = q * 10 ^ (m + 1) := by ring
          rw [h]
          exact hnot (m + 1) (Nat.succ_lt_succ hm)
      rw [hk]

lemma fracDigits_ten_thousandth : fracDigits (1/10000) = 4 := by
  refine fracDigitsFuel_eval 4 60 (1/10000) (by norm_num) (by norm_num) ?_
  intro m hm
  interval_cases m <;> norm_num

lemma fracDigits_half_thousandth : fracDigits (1/2000) = 4 := by
  refine fracDigitsFuel_eval 4 60 (1/2000) (by norm_num) (by norm_num) ?_
  intro m hm
  interval_cases m <;> norm_num

lemma DEFAULT_SPEC_min_qty : DEFAULT_SPEC.min_qty = 1/10000 := rfl

lemma DEFAULT_SPEC_max_leverage : DEFAULT_SPEC.max_leverage = 200 := rfl

lemma DEFAULT_SPEC_mmr : DEFAULT_SPEC.mmr = 1/200 := rfl

lemma DEFAULT_SPEC_liq_fee : DEFAULT_SPEC.liquidation_fee_rate = 1/2500 := rfl

lemma specC1_min_qty : specC1.min_qty = 1/2000 := rfl

lemma roundPrecision_DEFAULT : DEFAULT_SPEC.roundPrecision = 4 := by
  rw [ContractSpec.roundPrecision]
  norm_num [DEFAULT_SPEC_min_qty, fracDigits_ten_thousandth]

lemma roundPrecision_specC1 : specC1.roundPrecision = 4 := by
  rw [ContractSpec.roundPrecision]
  norm_num [specC1_min_qty, fracDigits_half_thousandth]

lemma round_qty_DEFAULT (q : ℚ) :
    DEFAULT_SPEC.round_qty q = (⌊q * 10 ^ 4⌋ : ℚ) / 10 ^ 4 := by
  rw [ContractSpec.round_qty, roundPrecision_DEFAULT,
    if_neg (by norm_num [DEFAULT_SPEC_min_qty])]

lemma round_qty_specC1 (q : ℚ) :
    specC1.round_qty q = (⌊q * 10 ^ 4⌋ : ℚ) / 10 ^ 4 := by
  rw [ContractSpec.round_qty, roundPrecision_specC1,
    if_neg (by norm_num [specC1_min_qty])]

/-- Claim C1: round_qty does not floor to a multiple of min_qty; it floors
to `roundPrecision` decimal places.  At min_qty = 0.0005 and raw = 0.0003 it
returns 0.0003, which differs from the largest multiple of min_qty not
exceeding the raw quantity (that multiple is 0), and is not a multiple of
min_qty at all. -/
theorem C1_counterexample :
    0 < specC1.min_qty ∧
    specC1.round_qty (3/10000) ≠ specC1.min_qty * ⌊(3/10000) / specC1.min_qty⌋ ∧
    ¬ isFloorMultiple specC1.min_qty (3/10000) (specC1.round_qty (3/10000)) := by
  have hval : specC1.round_qty (3/10000) = 3/10000 := by
    rw [round_qty_specC1]; norm_num
  refine ⟨by norm_num [specC1_min_qty], ?_, ?_⟩
  · rw [hval, specC1_min_qty]
    norm_num
  · rintro ⟨⟨k, hk⟩, -, -⟩
    rw [hval, specC1_min_qty] at hk
    have h5 : ((5 * k : ℤ) : ℚ) = 3 := by push_cast; linarith
    have h5i : (5 * k : ℤ) = 3 := by exact_mod_cast h5
    omega

/-- Claim C1 (amended): for min_qty ≤ 0 round_qty returns the raw quantity
unchanged; for min_qty > 0 it returns the largest multiple of
10 ^ (-roundPrecision) — not of min_qty — that does not exceed the raw
quantity, where roundPrecision is the number of fractional decimal digits of
min_qty (0 when min_qty ≥ 1).  This agrees with the claim only when min_qty
is exactly a power of ten. -/
theorem C1_round_qty_floor (s : ContractSpec) (q : ℚ) :
    (s.min_qty ≤ 0 → s.round_qty q = q) ∧
    (0 < s.min_qty →
      isFloorMultiple ((10 : ℚ) ^ s.roundPrecision)⁻¹ q (s.round_qty q)) := by
  constructor
  · intro h
    rw [ContractSpec.round_qty, if_pos h]
  · intro h
    rw [ContractSpec.round_qty, if_neg (not_le.mpr h)]
    have hfpos : (0 : ℚ) < 10 ^ s.roundPrecision := by positivity
    refine ⟨⟨⌊q * 10 ^ s.roundPrecision⌋, by rw [div_eq_mul_inv]⟩, ?_, ?_⟩
    · rw [div_le_iff₀ hfpos]
      exact Int.floor_le _
    · have hlt : q * 10 ^ s.roundPrecision < ⌊q * 10 ^ s.roundPrecision⌋ + 1 :=
        Int.lt_floor_add_one _
      have hrw : ((⌊q * 10 ^ s.roundPrecision⌋ : ℚ) / 10 ^ s.roundPrecision +
          ((10 : ℚ) ^ s.roundPrecision)⁻¹) =
          ((⌊q * 10 ^ s.roundPrecision⌋ : ℚ) + 1) / 10 ^ s.roundPrecision := by
        field_simp
      rw [hrw, lt_div_iff₀ hfpos]
      exact hlt

/-- Claim C1 witness: with quantization disabled the raw quantity 7 comes
back unchanged, and under DEFAULT_SPEC (precision 4) the rounding of 0.1 is
the largest multiple of 10 ^ (-4) not exceeding 0.1. -/
theorem C1_witness :
    specNoMin.round_qty 7 = 7 ∧
    isFloorMultiple ((10 : ℚ) ^ DEFAULT_SPEC.roundPrecision)⁻¹ (1/10)
      (DEFAULT_SPEC.round_qty (1/10)) :=
  ⟨(C1_round_qty_floor specNoMin 7).1 (by norm_num [specNoMin]),
   (C1_round_qty_floor DEFAULT_SPEC (1/10)).2 (by norm_num [DEFAULT_SPEC_min_qty])⟩

/-- Claim C9: quantity quantization is idempotent for every contract and
every input. -/
theorem C9_round_qty_idempotent (s : ContractSpec) (q : ℚ) :
    s.round_qty (s.round_qty q) = s.round_qty q := by
  by_cases h : s.min_qty ≤ 0
  · simp [ContractSpec.round_qty, h]
  · have hf : ((10 : ℚ) ^ s.roundPrecision) ≠ 0 := by positivity
    simp only [ContractSpec.round_qty, if_neg h]
    rw [div_mul_cancel₀ _ hf, Int.floor_intCast]

/-- Claim C8: get_liquidation_price coincides, on every position state, with
the claim's closed-form model — undefined exactly when the denominator is
zero or the resulting price is non-positive (the quantity-zero state falls
under a zero denominator), and otherwise the long/short formula value, which
is then strictly positive. -/
theorem C8_liquidation_price_formula (pos : CrossMarginPosition) :
    pos.get_liquidation_price =
      liq_price_model pos.balance pos.entry_price pos.quantity pos.spec.mmr
        pos.spec.liquidation_fee_rate := by
  rcases lt_trichotomy pos.quantity 0 with hneg | hzero | hpos
  · simp only [CrossMarginPosition.get_liquidation_price, liq_price_model,
      if_neg (ne_of_lt hneg), if_neg (not_lt.mpr (le_of_lt hneg))]
    by_cases hden : |pos.quantity| *
        (pos.spec.mmr + pos.spec.liquidation_fee_rate + 1) = 0
    · rw [if_pos hden, if_pos (Or.inl hden)]
    · rw [if_neg hden]
      by_cases hp : 0 < (pos.balance + pos.entry_price * |pos.quantity|) /
          (|pos.quantity| * (pos.spec.mmr + pos.spec.liquidation_fee_rate + 1))
      · rw [if_pos hp, if_neg (by push_neg; exact ⟨hden, hp⟩)]
      · rw [if_neg hp, if_pos (Or.inr (not_lt.mp hp))]
  · simp [CrossMarginPosition.get_liquidation_price, liq_price_model, hzero]
  · simp only [CrossMarginPosition.get_liquidation_price, liq_price_model,
      if_neg (ne_of_gt hpos), if_pos hpos]
    by_cases hden : |pos.quantity| *
        (pos.spec.mmr + pos.spec.liquidation_fee_rate - 1) = 0
    · rw [if_pos hden, if_pos (Or.inl hden)]
    · rw [if_neg hden]
      by_cases hp : 0 < (pos.balance - pos.entry_price * |pos.quantity|) /
          (|pos.quantity| * (pos.spec.mmr + pos.spec.liquidation_fee_rate - 1))
      · rw [if_pos hp, if_neg (by push_neg; exact ⟨hden, hp⟩)]
      · rw [if_neg hp, if_pos (Or.inr (not_lt.mp hp))]

/-- Claim C10: the estimated liquidation price never reads the leverage
field — two position states that differ only in leverage always yield the
same result. -/
theorem C10_liq_price_leverage_independent (symbol : String)
    (spec : ContractSpec) (balance entry qty mark : ℚ) (lev1 lev2 : ℤ) :
    CrossMarginPosition.get_liquidation_price
        ⟨symbol, spec, balance, entry, qty, lev1, mark⟩ =
      CrossMarginPosition.get_liquidation_price
        ⟨symbol, spec, balance, entry, qty, lev2, mark⟩ := rfl

/-- Claim C3: the side invariant can fail.  With DEFAULT_SPEC rates (0.5%
maintenance, 0.04% liquidation fee), entry 100, quantity 1 and balance 0.52
(enough to open at leverage 200, margin 0.5), the long position's computed
liquidation price 497400/4973 ≈ 100.02 lies strictly ABOVE the entry
price. -/
theorem C3_counterexample :
    0 < posC3.quantity ∧
    posC3.get_liquidation_price = some (497400/4973) ∧
    posC3.entry_price < 497400/4973 := by
  refine ⟨by norm_num [posC3], ?_, by norm_num [posC3]⟩
  norm_num [CrossMarginPosition.get_liquidation_price, posC3,
    DEFAULT_SPEC_mmr, DEFAULT_SPEC_liq_fee, abs_of_pos]

/-- Claim C3 (amended): when the two rates are non-negative, their sum is
below 1, and the balance strictly exceeds the maintenance cost of the
position at entry (entry * |qty| * (mmr + liquidation fee)), every computed
liquidation price of a long lies strictly below the entry price and every
computed liquidation price of a short lies strictly above it; without the
balance condition the code can return a long liquidation price above entry
(see the counterexample). -/
theorem C3_liq_price_side (pos : CrossMarginPosition) (p : ℚ)
    (hmmr : 0 ≤ pos.spec.mmr) (hfee : 0 ≤ pos.spec.liquidation_fee_rate)
    (hsum : pos.spec.mmr + pos.spec.liquidation_fee_rate < 1)
    (hbal : pos.entry_price * |pos.quantity| *
        (pos.spec.mmr + pos.spec.liquidation_fee_rate) < pos.balance)
    (hres : pos.get_liquidation_price = some p) :
    (0 < pos.quantity → p < pos.entry_price) ∧
    (pos.quantity < 0 → pos.entry_price < p) := by
  constructor
  · intro hq
    simp only [CrossMarginPosition.get_liquidation_price,
      if_neg (ne_of_gt hq), if_pos hq] at hres
    rw [abs_of_pos hq] at hres hbal
    have hden : pos.quantity *
        (pos.spec.mmr + pos.spec.liquidation_fee_rate - 1) < 0 :=
      mul_neg_of_pos_of_neg hq (by linarith)
    rw [if_neg (ne_of_lt hden)] at hres
    split_ifs at hres with hp
    · rw [← Option.some.inj hres, div_lt_iff_of_neg hden]
      have hring : pos.entry_price * (pos.quantity *
          (pos.spec.mmr + pos.spec.liquidation_fee_rate - 1)) =
          pos.entry_price * pos.quantity *
            (pos.spec.mmr + pos.spec.liquidation_fee_rate) -
          pos.entry_price * pos.quantity := by ring
      rw [hring]
      linarith
  · intro hq
    simp only [CrossMarginPosition.get_liquidation_price,
      if_neg (ne_of_lt hq), if_neg (not_lt.mpr (le_of_lt hq))] at hres
    rw [abs_of_neg hq] at hres hbal
    have hden : 0 < -pos.quantity *
        (pos.spec.mmr + pos.spec.liquidation_fee_rate + 1) :=
      mul_pos (neg_pos.mpr hq) (by linarith)
    rw [if_neg (ne_of_gt hden)] at hres
    split_ifs at hres with hp
    · rw [← Option.some.inj hres, lt_div_iff₀ hden]
      have hring : pos.entry_price * (-pos.quantity *
          (pos.spec.mmr + pos.spec.liquidation_fee_rate + 1)) =
          pos.entry_price * -pos.quantity *
            (pos.spec.mmr + pos.spec.liquidation_fee_rate) +
          pos.entry_price * -pos.quantity := by ring
      rw [hring]
      linarith

lemma posEx_liq : posEx.get_liquidation_price = some (250000000/4973) := by
  norm_num [CrossMarginPosition.get_liquidation_price, posEx,
    DEFAULT_SPEC_mmr, DEFAULT_SPEC_liq_fee, abs_of_pos]

/-- Claim C3 witness: the worked-example long position (entry 60000,
quantity 0.1, balance 1000) satisfies the amended hypotheses and its computed
liquidation price 250000000/4973 ≈ 50271 is below the entry price. -/
theorem C3_witness : (250000000/4973 : ℚ) < posEx.entry_price :=
  (C3_liq_price_side posEx (250000000/4973)
      (by norm_num [posEx, DEFAULT_SPEC_mmr])
      (by norm_num [posEx, DEFAULT_SPEC_liq_fee])
      (by norm_num [posEx, DEFAULT_SPEC_mmr, DEFAULT_SPEC_liq_fee])
      (by norm_num [posEx, DEFAULT_SPEC_mmr, DEFAULT_SPEC_liq_fee, abs_of_pos])
      posEx_liq).1 (by norm_num [posEx])

lemma calc_stopEqualsEntry {entry_price stop_loss risk_amount balance : ℚ}
    {spec : ContractSpec} {tp : Option ℚ} (h : entry_price = stop_loss) :
    CrossMarginPosition.calculate_from_risk entry_price stop_loss risk_amount
      balance spec tp = .error .stopEqualsEntry := by
  rw [CrossMarginPosition.calculate_from_risk, if_pos h]

lemma calc_sizeTooSmall {entry_price stop_loss risk_amount balance : ℚ}
    {spec : ContractSpec} {tp : Option ℚ} (h1 : entry_price ≠ stop_loss)
    (h2 : spec.round_qty (risk_amount / |entry_price - stop_loss|) ≤ 0) :
    CrossMarginPosition.calculate_from_risk entry_price stop_loss risk_amount
      balance spec tp = .error .sizeTooSmall := by
  simp only [CrossMarginPosition.calculate_from_risk]
  rw [if_neg h1, if_pos h2]

lemma calc_balanceNotPositive {entry_price stop_loss risk_amount balance : ℚ}
    {spec : ContractSpec} {tp : Option ℚ} (h1 : entry_price ≠ stop_loss)
    (h2 : 0 < spec.round_qty (risk_amount / |entry_price - stop_loss|))
    (h3 : balance ≤ 0) :
    CrossMarginPosition.calculate_from_risk entry_price stop_loss risk_amount
      balance spec tp = .error .balanceNotPositive := by
  simp only [CrossMarginPosition.calculate_from_risk]
  rw [if_neg h1, if_neg (not_le.mpr h2), if_pos h3]

lemma abs_signed_qty {stop_loss entry_price q0 : ℚ} (h2 : 0 < q0) :
    |(if stop_loss < entry_price then q0 else -q0)| = q0 := by
  split_ifs
  · exact abs_of_pos h2
  · rw [abs_neg]; exact abs_of_pos h2

lemma calc_leverageExceeded {entry_price stop_loss risk_amount balance : ℚ}
    {spec : ContractSpec} {tp : Option ℚ} (h1 : entry_price ≠ stop_loss)
    (h2 : 0 < spec.round_qty (risk_amount / |entry_price - stop_loss|))
    (h3 : 0 < balance)
    (h4 : spec.max_leverage <
      ⌈spec.round_qty (risk_amount / |entry_price - stop_loss|) * entry_price /
        balance⌉) :
    CrossMarginPosition.calculate_from_risk entry_price stop_loss risk_amount
      balance spec tp = .error .leverageExceeded := by
  simp only [CrossMarginPosition.calculate_from_risk]
  rw [if_neg h1, if_neg (not_le.mpr h2), if_neg (not_le.mpr h3),
    abs_signed_qty h2, if_pos h4]

lemma open_position_error_cases {pos : CrossMarginPosition}
    {entry_price quantity : ℚ} {leverage : ℤ} {e : CalcError}
    (h : pos.open_position entry_price quantity leverage = .error e) :
    e = .leverageOutOfRange ∨ e = .qtyZero ∨ e = .insufficientBalance := by
  simp only [CrossMarginPosition.open_position] at h
  split_ifs at h
  · injection h with h2; exact Or.inr (Or.inl h2.symm)
  · injection h with h2; exact Or.inr (Or.inr h2.symm)
  · injection h with h2; exact Or.inl h2.symm

lemma calc_not_leverageExceeded {entry_price stop_loss risk_amount balance : ℚ}
    {spec : ContractSpec} {tp : Option ℚ} (h1 : entry_price ≠ stop_loss)
    (h2 : 0 < spec.round_qty (risk_amount / |entry_price - stop_loss|))
    (h3 : 0 < balance)
    (h4 : ¬ spec.max_leverage <
      ⌈spec.round_qty (risk_amount / |entry_price - stop_loss|) * entry_price /
        balance⌉) :
    CrossMarginPosition.calculate_from_risk entry_price stop_loss risk_amount
      balance spec tp ≠ .error .leverageExceeded := by
  simp only [CrossMarginPosition.calculate_from_risk]
  rw [if_neg h1, if_neg (not_le.mpr h2), if_neg (not_le.mpr h3),
    abs_signed_qty h2, if_neg h4]
  by_cases h5 : (⌈spec.round_qty (risk_amount / |entry_price - stop_loss|) *
      entry_price / balance⌉ : ℤ) = 0
  · rw [if_pos h5]
    simp
  · rw [if_neg h5]
    cases hop : (CrossMarginPosition.mk0 spec.symbol spec
        balance).open_position entry_price
        (if stop_loss < entry_price then
            spec.round_qty (risk_amount / |entry_price - stop_loss|)
          else -spec.round_qty (risk_amount / |entry_price - stop_loss|))
        ⌈spec.round_qty (risk_amount / |entry_price - stop_loss|) * entry_price /
          balance⌉ with
    | error e =>
      rcases open_position_error_cases hop with he | he | he <;> simp [he]
    | ok temp_pos =>
      simp

lemma open_position_insufficient {pos : CrossMarginPosition}
    {entry_price quantity : ℚ} {leverage : ℤ}
    (h1 : 1 ≤ leverage) (h2 : leverage ≤ pos.spec.max_leverage)
    (h3 : quantity ≠ 0)
    (h4 : pos.balance < |quantity| * entry_price / (leverage : ℚ)) :
    pos.open_position entry_price quantity leverage =
      .error .insufficientBalance := by
  simp only [CrossMarginPosition.open_position]
  rw [if_neg (not_not_intro ⟨h1, h2⟩), if_neg h3, if_pos h4]

lemma calc_ok_inv {entry_price stop_loss risk_amount balance : ℚ}
    {spec : ContractSpec} {tp : Option ℚ} {plan : TradePlan}
    (h : CrossMarginPosition.calculate_from_risk entry_price stop_loss
      risk_amount balance spec tp = .ok plan) :
    entry_price ≠ stop_loss ∧
    0 < spec.round_qty (risk_amount / |entry_price - stop_loss|) ∧
    0 < balance ∧
    plan.quantity = (if stop_loss < entry_price then
        spec.round_qty (risk_amount / |entry_price - stop_loss|)
      else -spec.round_qty (risk_amount / |entry_price - stop_loss|)) ∧
    plan.notional = |plan.quantity| * entry_price ∧
    plan.leverage = ⌈plan.notional / balance⌉ ∧
    1 ≤ plan.leverage ∧ plan.leverage ≤ spec.max_leverage ∧
    plan.margin = plan.notional / (plan.leverage : ℚ) ∧
    plan.margin ≤ balance := by
  simp only [CrossMarginPosition.calculate_from_risk,
    CrossMarginPosition.open_position, CrossMarginPosition.mk0] at h
  by_cases h1 : entry_price = stop_loss
  · rw [if_pos h1] at h; simp at h
  rw [if_neg h1] at h
  set q0 := spec.round_qty (risk_amount / |entry_price - stop_loss|) with hq0
  by_cases h2 : q0 ≤ 0
  · rw [if_pos h2] at h; simp at h
  rw [if_neg h2] at h
  by_cases h3 : balance ≤ 0
  · rw [if_pos h3] at h; simp at h
  rw [if_neg h3] at h
  set qty := (if stop_loss < entry_price then q0 else -q0) with hqty
  set L := (⌈|qty| * entry_price / balance⌉ : ℤ) with hL
  by_cases h4 : spec.max_leverage < L
  · rw [if_pos h4] at h; simp at h
  rw [if_neg h4] at h
  by_cases h5 : L = 0
  · rw [if_pos h5] at h; simp at h
  rw [if_neg h5] at h
  by_cases h6 : 1 ≤ L ∧ L ≤ spec.max_leverage
  · rw [if_neg (not_not_intro h6)] at h
    by_cases h7 : qty = 0
    · rw [if_pos h7] at h; simp at h
    rw [if_neg h7] at h
    by_cases h8 : balance < |qty| * entry_price / (L : ℚ)
    · rw [if_pos h8] at h; simp at h
    rw [if_neg h8] at h
    simp only [Except.ok.injEq] at h
    subst h
    refine ⟨h1, not_le.mp h2, not_le.mp h3, rfl, rfl, hL, h6.1, h6.2, rfl,
      not_lt.mp h8⟩
  · rw [if_pos h6] at h; simp at h

lemma calc_run_example :
    CrossMarginPosition.calculate_from_risk 60000 59500 50 1000 DEFAULT_SPEC
      none = .ok planEx := by
  rw [CrossMarginPosition.calculate_from_risk]
  norm_num [round_qty_DEFAULT, CrossMarginPosition.mk0,
    CrossMarginPosition.open_position, CrossMarginPosition.get_liquidation_price,
    DEFAULT_SPEC_min_qty, DEFAULT_SPEC_max_leverage, DEFAULT_SPEC_mmr,
    DEFAULT_SPEC_liq_fee, ceil_as_neg_floor, abs_of_pos, planEx]

/-- Claim C4: the positivity-first validation order does not hold.  On the
all-non-positive input entry -1, stop -2, risk -5, balance -10 the derivation
reports the quantized-size error (reached only after the quantity was
computed), not an invalid-input error for any of the four non-positive
values, none of which calculate_from_risk ever checks directly. -/
theorem C4_counterexample :
    CrossMarginPosition.calculate_from_risk (-1) (-2) (-5) (-10) DEFAULT_SPEC
      none = .error .sizeTooSmall := by
  have h2 : DEFAULT_SPEC.round_qty ((-5) / |(-1 : ℚ) - -2|) ≤ 0 := by
    rw [round_qty_DEFAULT]; norm_num
  exact calc_sizeTooSmall (by norm_num) h2

/-- Claim C4 (amended): calculate_from_risk validates fail-fast in this
order: (1) entry equal to stop-loss; (2) quantized quantity ≤ 0 (which is
also how a non-positive risk amount surfaces); (3) balance ≤ 0, checked only
after the quantity is computed; then the leverage cap.  It never checks
entry, stop-loss, risk amount or take-profit for positivity. -/
theorem C4_validation_order (entry_price stop_loss risk_amount balance : ℚ)
    (spec : ContractSpec) (tp : Option ℚ) :
    (entry_price = stop_loss →
      CrossMarginPosition.calculate_from_risk entry_price stop_loss risk_amount
        balance spec tp = .error .stopEqualsEntry) ∧
    (entry_price ≠ stop_loss →
      spec.round_qty (risk_amount / |entry_price - stop_loss|) ≤ 0 →
      CrossMarginPosition.calculate_from_risk entry_price stop_loss risk_amount
        balance spec tp = .error .sizeTooSmall) ∧
    (entry_price ≠ stop_loss →
      0 < spec.round_qty (risk_amount / |entry_price - stop_loss|) →
      balance ≤ 0 →
      CrossMarginPosition.calculate_from_risk entry_price stop_loss risk_amount
        balance spec tp = .error .balanceNotPositive) :=
  ⟨fun h => calc_stopEqualsEntry h,
   fun h1 h2 => calc_sizeTooSmall h1 h2,
   fun h1 h2 h3 => calc_balanceNotPositive h1 h2 h3⟩

/-- Claim C4 witness: the three checks fire in order on concrete inputs —
equal prices, a negative risk amount (surfacing as the size error), and a
negative balance. -/
theorem C4_witness :
    CrossMarginPosition.calculate_from_risk 1 1 5 10 DEFAULT_SPEC none =
      .error .stopEqualsEntry ∧
    CrossMarginPosition.calculate_from_risk 2 1 (-5) 10 DEFAULT_SPEC none =
      .error .sizeTooSmall ∧
    CrossMarginPosition.calculate_from_risk 60000 59500 50 (-1) DEFAULT_SPEC
      none = .error .balanceNotPositive :=
  ⟨(C4_validation_order 1 1 5 10 DEFAULT_SPEC none).1 rfl,
   (C4_validation_order 2 1 (-5) 10 DEFAULT_SPEC none).2.1 (by norm_num)
     (by rw [round_qty_DEFAULT]; norm_num),
   (C4_validation_order 60000 59500 50 (-1) DEFAULT_SPEC none).2.2
     (by norm_num) (by rw [round_qty_DEFAULT]; norm_num) (by norm_num)⟩

/-- Claim C5: on the happy path the derived leverage is exactly
ceil(notional / balance) and lies in [1, max_leverage]; and once the inputs
pass the earlier checks (entry differs from stop, positive quantized
quantity, positive balance), the derivation fails with the leverage error
precisely when ceil(quantized quantity * entry / balance) exceeds the
contract maximum. -/
theorem C5_minimum_sufficient_leverage
    (entry_price stop_loss risk_amount balance : ℚ) (spec : ContractSpec)
    (tp : Option ℚ) :
    (∀ plan, CrossMarginPosition.calculate_from_risk entry_price stop_loss
        risk_amount balance spec tp = .ok plan →
      plan.leverage = ⌈plan.notional / balance⌉ ∧ 1 ≤ plan.leverage ∧
        plan.leverage ≤ spec.max_leverage) ∧
    (entry_price ≠ stop_loss →
      0 < spec.round_qty (risk_amount / |entry_price - stop_loss|) →
      0 < balance →
      (CrossMarginPosition.calculate_from_risk entry_price stop_loss
          risk_amount balance spec tp = .error .leverageExceeded ↔
        spec.max_leverage <
          ⌈spec.round_qty (risk_amount / |entry_price - stop_loss|) *
            entry_price / balance⌉)) := by
  constructor
  · intro plan h
    obtain ⟨-, -, -, -, -, hlev, h1le, hmax, -, -⟩ := calc_ok_inv h
    exact ⟨hlev, h1le, hmax⟩
  · intro h1 h2 h3
    constructor
    · intro herr
      by_contra h4
      exact calc_not_leverageExceeded h1 h2 h3 h4 herr
    · intro h4
      exact calc_leverageExceeded h1 h2 h3 h4

/-- Claim C5 witness: for the worked example the returned plan has leverage
6 = ceil(6000/1000) within [1, 200], and the leverage error is indeed
absent. -/
theorem C5_witness :
    (planEx.leverage = ⌈planEx.notional / 1000⌉ ∧ 1 ≤ planEx.leverage ∧
      planEx.leverage ≤ DEFAULT_SPEC.max_leverage) ∧
    CrossMarginPosition.calculate_from_risk 60000 59500 50 1000 DEFAULT_SPEC
      none ≠ .error .leverageExceeded := by
  constructor
  · exact (C5_minimum_sufficient_leverage 60000 59500 50 1000 DEFAULT_SPEC
      none).1 planEx calc_run_example
  · intro hc
    have h := ((C5_minimum_sufficient_leverage 60000 59500 50 1000 DEFAULT_SPEC
      none).2 (by norm_num) (by rw [round_qty_DEFAULT]; norm_num)
      (by norm_num)).mp hc
    rw [round_qty_DEFAULT, DEFAULT_SPEC_max_leverage] at h
    norm_num [ceil_as_neg_floor] at h

/-- Claim C6: every plan calculate_from_risk returns has margin at most the
balance (the open_position margin guard sits on the success path), and
whenever the required margin strictly exceeds the balance, open_position —
the only place margin is compared to balance — fails with the
insufficient-capital error rather than returning a position. -/
theorem C6_margin_within_balance :
    (∀ entry_price stop_loss risk_amount balance : ℚ, ∀ spec : ContractSpec,
      ∀ tp : Option ℚ, ∀ plan : TradePlan,
        CrossMarginPosition.calculate_from_risk entry_price stop_loss
          risk_amount balance spec tp = .ok plan →
        plan.margin ≤ balance) ∧
    (∀ pos : CrossMarginPosition, ∀ entry_price quantity : ℚ, ∀ leverage : ℤ,
        1 ≤ leverage → leverage ≤ pos.spec.max_leverage → quantity ≠ 0 →
        pos.balance < |quantity| * entry_price / (leverage : ℚ) →
        pos.open_position entry_price quantity leverage =
          .error .insufficientBalance) := by
  constructor
  · intro e s r b spec tp plan h
    exact (calc_ok_inv h).2.2.2.2.2.2.2.2.2
  · intro pos e q lev h1 h2 h3 h4
    exact open_position_insufficient h1 h2 h3 h4

/-- Claim C6 witness: the worked-example plan consumes its entire balance
(margin 1000 ≤ 1000), and opening 0.1 BTC at 60000 with leverage 1 on a
balance of 10 fails with the insufficient-capital error. -/
theorem C6_witness :
    planEx.margin ≤ 1000 ∧
    (CrossMarginPosition.mk0 "BTCUSDT" DEFAULT_SPEC 10).open_position 60000
      (1/10) 1 = .error .insufficientBalance := by
  constructor
  · exact C6_margin_within_balance.1 60000 59500 50 1000 DEFAULT_SPEC none
      planEx calc_run_example
  · refine C6_margin_within_balance.2 _ 60000 (1/10) 1 le_rfl
      (by norm_num [CrossMarginPosition.mk0, DEFAULT_SPEC_max_leverage])
      (by norm_num) ?_
    norm_num [CrossMarginPosition.mk0, abs_of_pos]

/-- Claim C7: a quantized quantity ≤ 0 makes calculate_from_risk fail with
the size error, and every successfully returned plan carries a strictly
positive quantity for a long intent (entry above stop) and a strictly
negative quantity for a short intent. -/
theorem C7_size_and_sign (entry_price stop_loss risk_amount balance : ℚ)
    (spec : ContractSpec) (tp : Option ℚ) :
    (entry_price ≠ stop_loss →
      spec.round_qty (risk_amount / |entry_price - stop_loss|) ≤ 0 →
      CrossMarginPosition.calculate_from_risk entry_price stop_loss risk_amount
        balance spec tp = .error .sizeTooSmall) ∧
    (∀ plan, CrossMarginPosition.calculate_from_risk entry_price stop_loss
        risk_amount balance spec tp = .ok plan →
      (stop_loss < entry_price → 0 < plan.quantity) ∧
      (entry_price < stop_loss → plan.quantity < 0)) := by
  constructor
  · exact fun h1 h2 => calc_sizeTooSmall h1 h2
  · intro plan h
    obtain ⟨-, hq0, -, hqty, -⟩ := calc_ok_inv h
    constructor
    · intro hl
      rw [hqty, if_pos hl]
      exact hq0
    · intro hs
      rw [hqty, if_neg (lt_asymm hs)]
      exact neg_lt_zero.mpr hq0

/-- Claim C7 witness: the spec's size-too-small example (risk 0.00001 over a
500-point stop distance quantizes to 0) fails with the size error, and the
worked example's long plan has positive quantity. -/
theorem C7_witness :
    CrossMarginPosition.calculate_from_risk 60000 59500 (1/100000) 1000
      DEFAULT_SPEC none = .error .sizeTooSmall ∧
    0 < planEx.quantity := by
  constructor
  · exact (C7_size_and_sign 60000 59500 (1/100000) 1000 DEFAULT_SPEC none).1
      (by norm_num) (by rw [round_qty_DEFAULT]; norm_num)
  · exact ((C7_size_and_sign 60000 59500 50 1000 DEFAULT_SPEC none).2 planEx
      calc_run_example).1 (by norm_num)

/-- Claim C2: calculate_from_risk itself never raises a direction-conflict
error.  With a long intent (entry 60000 above stop 59500) and take-profit
59800 on the wrong side of entry, it still returns a complete plan — the
wrong-side take-profit only shrinks the reported profit leg. -/
theorem C2_counterexample :
    CrossMarginPosition.calculate_from_risk 60000 59500 50 1000 DEFAULT_SPEC
      (some 59800) =
      .ok ⟨1/10, 6, 1000, 6000, some 20, some (2/5), some (250000000/4973)⟩ := by
  rw [CrossMarginPosition.calculate_from_risk]
  norm_num [round_qty_DEFAULT, CrossMarginPosition.mk0,
    CrossMarginPosition.open_position, CrossMarginPosition.get_liquidation_price,
    DEFAULT_SPEC_min_qty, DEFAULT_SPEC_max_leverage, DEFAULT_SPEC_mmr,
    DEFAULT_SPEC_liq_fee, ceil_as_neg_floor, abs_of_pos, abs_of_neg]

/-- Claim C2 (amended): the wrong-side take-profit check lives in the main()
flow, which rejects the intent before calculate_from_risk is ever invoked:
with a nonzero take-profit, a long intent whose take-profit does not exceed
entry fails with the long direction-conflict error, and a short intent whose
take-profit is not below entry fails with the short one. -/
theorem C2_direction_conflict_in_main
    (entry_price stop_loss risk_amount balance take_profit : ℚ)
    (spec : ContractSpec) (hne : entry_price ≠ stop_loss)
    (htp : take_profit ≠ 0) :
    (stop_loss < entry_price → take_profit ≤ entry_price →
      main_flow entry_price stop_loss risk_amount balance take_profit spec =
        .error (.inl .longTpNotAbove)) ∧
    (entry_price < stop_loss → entry_price ≤ take_profit →
      main_flow entry_price stop_loss risk_amount balance take_profit spec =
        .error (.inl .shortTpNotBelow)) := by
  constructor
  · intro hl htple
    simp only [main_flow]
    rw [if_neg hne, if_pos ⟨hl, htple, htp⟩]
  · intro hs htpge
    simp only [main_flow]
    rw [if_neg hne, if_neg (fun hcon => absurd hcon.1 (lt_asymm hs)),
      if_pos ⟨lt_asymm hs, htpge, htp⟩]

/-- Claim C2 witness: the spec's error example (long intent, take-profit
59800 below entry 60000) is rejected by the main() flow with the long
direction-conflict error. -/
theorem C2_witness :
    main_flow 60000 59500 50 1000 59800 DEFAULT_SPEC =
      .error (.inl .longTpNotAbove) :=
  (C2_direction_conflict_in_main 60000 59500 50 1000 59800 DEFAULT_SPEC
    (by norm_num) (by norm_num)).1 (by norm_num) (by norm_num)

lemma posC3_reachable :
    (CrossMarginPosition.mk0 "BTCUSDT" DEFAULT_SPEC (13/25)).open_position
      100 1 200 = .ok posC3 := by
  rw [CrossMarginPosition.open_position]
  norm_num [CrossMarginPosition.mk0, round_qty_DEFAULT,
    DEFAULT_SPEC_max_leverage, abs_of_pos, posC3]
